import Mathlib

/- Verification of the MLO simulation orchestration scripts of the
WiFi-MLO-Reliability repository (`testing_script.py` and
`testing_script_extreme.py`).

The scripts expand a static scenario catalog into a matrix of external
simulator invocations (category × scenario × strategy × protocol), assign
seeds from a counter initialised from the run timestamp, build command
strings and per-run log artifacts, and fold worker results into
success/failure counters.

Shallow embedding conventions:
  * the scenario catalog (a Python dict) is an association list in
    insertion order;
  * the runner state (`output_csv_path`, `log_dir`, `timestamp`) is passed
    explicitly;
  * wall-clock readings (`datetime.now().isoformat()`, the rendered
    execution time) are opaque string inputs supplied by the environment;
  * a subprocess execution is an oracle value of type `ProcOutcome`:
    either the process terminated with a return code and captured
    stdout/stderr, or process creation raised a Python exception whose
    text is given;
  * file writes are recorded as `LogWrite` values instead of performing
    IO. -/

namespace MLO

/- Data model of the scenario catalog: one test scenario (an entry of a
`tests` list in `define_test_scenarios`) and one category (a value of the
`scenarios` dict). -/

/-- One test scenario: an entry of a `tests` list in
`MLOSimulationRunner.define_test_scenarios` (`testing_script.py`). -/
structure TestConfig where
  name : String
  params : String
  description : String
deriving DecidableEq

/-- One scenario category: a value of the `scenarios` dict built by
`define_test_scenarios`, keyed by the category name. -/
structure Category where
  description : String
  tests : List TestConfig
deriving DecidableEq

/-- The full scenario catalog of `MLOSimulationRunner.define_test_scenarios`
(`testing_script.py` lines 50-167), as an association list in the dict's
insertion order. -/
def scenarios : List (String × Category) := [
  ("baseline",
   { description := "Basic performance under normal conditions",
     tests := [
       { name := "normal_load_critical_high", params := "--nWifi=20 --tidCount=24 --criticalTids=0 --emergencyTids=24 --simtime=30 --dataRate=100Mbps", description := "Normal load - Emergency TIDs with Ultra-Critical SLA (1ms threshold)" },
       { name := "normal_load_critical_basic", params := "--nWifi=20 --tidCount=24 --criticalTids=24 --emergencyTids=0 --simtime=30 --dataRate=100Mbps", description := "Normal load - Critical Basic SLA (All Critical TIDs)" },
       { name := "normal_load_non_critical", params := "--nWifi=20 --tidCount=24 --criticalTids=0 --emergencyTids=0 --simtime=30 --dataRate=100Mbps", description := "Normal load - Non Critical SLA (All Non-Critical TIDs)" },
       { name := "normal_load_mixed_tid", params := "--nWifi=20 --tidCount=24 --criticalTids=8 --emergencyTids=8 --simtime=30 --dataRate=100Mbps", description := "Normal load - Mixed TID (Emergency + Critical + Non-Critical)" },
       { name := "high_load_critical_high", params := "--nWifi=30 --tidCount=36 --criticalTids=0 --emergencyTids=36 --simtime=30 --dataRate=150Mbps", description := "High load - Emergency TIDs with Ultra-Critical SLA (1ms threshold)" },
       { name := "high_load_critical_basic", params := "--nWifi=30 --tidCount=36 --criticalTids=36 --emergencyTids=0 --simtime=30 --dataRate=150Mbps", description := "High load - Critical Basic SLA (All Critical TIDs)" },
       { name := "high_load_non_critical", params := "--nWifi=30 --tidCount=36 --criticalTids=0 --emergencyTids=0 --simtime=30 --dataRate=150Mbps", description := "High load - Non Critical SLA (All Non-Critical TIDs)" },
       { name := "high_load_mixed_tid", params := "--nWifi=30 --tidCount=36 --criticalTids=12 --emergencyTids=12 --simtime=30 --dataRate=150Mbps", description := "High load - Mixed TID (Emergency + Critical + Non-Critical)" },
       { name := "mixed_traffic_critical_high", params := "--nWifi=25 --tidCount=32 --criticalTids=0 --emergencyTids=32 --simtime=30 --dataRate=120Mbps", description := "Mixed traffic - Emergency TIDs with Ultra-Critical SLA (1ms threshold)" },
       { name := "mixed_traffic_critical_basic", params := "--nWifi=25 --tidCount=32 --criticalTids=32 --emergencyTids=0 --simtime=30 --dataRate=120Mbps", description := "Mixed traffic - Critical Basic SLA (All Critical TIDs)" },
       { name := "mixed_traffic_non_critical", params := "--nWifi=25 --tidCount=32 --criticalTids=0 --emergencyTids=0 --simtime=30 --dataRate=120Mbps", description := "Mixed traffic - Non Critical SLA (All Non-Critical TIDs)" },
       { name := "mixed_traffic_mixed_tid", params := "--nWifi=25 --tidCount=32 --criticalTids=11 --emergencyTids=11 --simtime=30 --dataRate=120Mbps", description := "Mixed traffic - Mixed TID (Emergency + Critical + Non-Critical)" }
     ] }),
  ("interference",
   { description := "Performance under different interference patterns",
     tests := [
       { name := "low_interference_critical_high", params := "--nWifi=20 --tidCount=24 --criticalTids=0 --emergencyTids=24 --simtime=30 --interference=true --interferenceIntensity=0.3", description := "Low interference - Emergency TIDs with Ultra-Critical SLA (1ms threshold)" },
       { name := "low_interference_critical_basic", params := "--nWifi=20 --tidCount=24 --criticalTids=24 --emergencyTids=0 --simtime=30 --interference=true --interferenceIntensity=0.3", description := "Low interference - Critical Basic SLA (All Critical TIDs)" },
       { name := "low_interference_non_critical", params := "--nWifi=20 --tidCount=24 --criticalTids=0 --emergencyTids=0 --simtime=30 --interference=true --interferenceIntensity=0.3", description := "Low interference - Non Critical SLA (All Non-Critical TIDs)" },
       { name := "low_interference_mixed_tid", params := "--nWifi=20 --tidCount=24 --criticalTids=8 --emergencyTids=8 --simtime=30 --interference=true --interferenceIntensity=0.3", description := "Low interference - Mixed TID (Emergency + Critical + Non-Critical)" },
       { name := "medium_interference_critical_high", params := "--nWifi=20 --tidCount=24 --criticalTids=0 --emergencyTids=24 --simtime=30 --interference=true --interferenceIntensity=0.6", description := "Medium interference - Emergency TIDs with Ultra-Critical SLA (1ms threshold)" },
       { name := "medium_interference_critical_basic", params := "--nWifi=20 --tidCount=24 --criticalTids=24 --emergencyTids=0 --simtime=30 --interference=true --interferenceIntensity=0.6", description := "Medium interference - Critical Basic SLA (All Critical TIDs)" },
       { name := "medium_interference_non_critical", params := "--nWifi=20 --tidCount=24 --criticalTids=0 --emergencyTids=0 --simtime=30 --interference=true --interferenceIntensity=0.6", description := "Medium interference - Non Critical SLA (All Non-Critical TIDs)" },
       { name := "medium_interference_mixed_tid", params := "--nWifi=20 --tidCount=24 --criticalTids=8 --emergencyTids=8 --simtime=30 --interference=true --interferenceIntensity=0.6", description := "Medium interference - Mixed TID (Emergency + Critical + Non-Critical)" }
     ] }),
  ("failure_recovery",
   { description := "Basic link failure and recovery performance",
     tests := [
       { name := "random_failures_mixed_tid", params := "--nWifi=20 --tidCount=24 --criticalTids=8 --emergencyTids=8 --simtime=40 --linkFailureRate=0.1 --enableFailureRecovery=true", description := "Random failures (10% chance per second) - Mixed TID" }
     ] }),
  ("mobility",
   { description := "Performance under mobility conditions",
     tests := [
       { name := "static_nodes_critical_high", params := "--nWifi=20 --tidCount=24 --criticalTids=0 --emergencyTids=24 --simtime=30 --mobility=false", description := "Static topology - Critical High SLA (All Emergency TIDs)" },
       { name := "static_nodes_critical_basic", params := "--nWifi=20 --tidCount=24 --criticalTids=24 --emergencyTids=0 --simtime=30 --mobility=false", description := "Static topology - Critical Basic SLA (All Critical TIDs)" },
       { name := "static_nodes_non_critical", params := "--nWifi=20 --tidCount=24 --criticalTids=0 --emergencyTids=0 --simtime=30 --mobility=false", description := "Static topology - Non Critical SLA (All Non-Critical TIDs)" },
       { name := "static_nodes_mixed_tid", params := "--nWifi=20 --tidCount=24 --criticalTids=8 --emergencyTids=8 --simtime=30 --mobility=false", description := "Static topology - Mixed TID (Emergency + Critical + Non-Critical)" },
       { name := "low_mobility_critical_high", params := "--nWifi=20 --tidCount=24 --criticalTids=0 --emergencyTids=24 --simtime=35 --mobility=true --mobilitySpeed=2.0", description := "Low mobility - Critical High SLA (All Emergency TIDs)" },
       { name := "low_mobility_critical_basic", params := "--nWifi=20 --tidCount=24 --criticalTids=24 --emergencyTids=0 --simtime=35 --mobility=true --mobilitySpeed=2.0", description := "Low mobility - Critical Basic SLA (All Critical TIDs)" },
       { name := "low_mobility_non_critical", params := "--nWifi=20 --tidCount=24 --criticalTids=0 --emergencyTids=0 --simtime=35 --mobility=true --mobilitySpeed=2.0", description := "Low mobility - Non Critical SLA (All Non-Critical TIDs)" },
       { name := "low_mobility_mixed_tid", params := "--nWifi=20 --tidCount=24 --criticalTids=8 --emergencyTids=8 --simtime=35 --mobility=true --mobilitySpeed=2.0", description := "Low mobility - Mixed TID (Emergency + Critical + Non-Critical)" },
       { name := "medium_mobility_critical_high", params := "--nWifi=20 --tidCount=24 --criticalTids=0 --emergencyTids=24 --simtime=35 --mobility=true --mobilitySpeed=5.0", description := "Medium mobility - Critical High SLA (All Emergency TIDs)" },
       { name := "medium_mobility_critical_basic", params := "--nWifi=20 --tidCount=24 --criticalTids=24 --emergencyTids=0 --simtime=35 --mobility=true --mobilitySpeed=5.0", description := "Medium mobility - Critical Basic SLA (All Critical TIDs)" },
       { name := "medium_mobility_non_critical", params := "--nWifi=20 --tidCount=24 --criticalTids=0 --emergencyTids=0 --simtime=35 --mobility=true --mobilitySpeed=5.0", description := "Medium mobility - Non Critical SLA (All Non-Critical TIDs)" },
       { name := "medium_mobility_mixed_tid", params := "--nWifi=20 --tidCount=24 --criticalTids=8 --emergencyTids=8 --simtime=35 --mobility=true --mobilitySpeed=5.0", description := "Medium mobility - Mixed TID (Emergency + Critical + Non-Critical)" }
     ] }),
  ("scalability",
   { description := "Scalability performance tests with node progression: 10, 20, 25, 30, 40, 50, 60",
     tests := [
       { name := "10_nodes_mixed_tid", params := "--nWifi=10 --tidCount=12 --criticalTids=4 --emergencyTids=4 --simtime=25 --dataRate=50Mbps", description := "10 nodes - Mixed TID (Emergency + Critical + Non-Critical)" },
       { name := "20_nodes_critical_high", params := "--nWifi=20 --tidCount=24 --criticalTids=0 --emergencyTids=24 --simtime=30 --dataRate=75Mbps", description := "20 nodes - Critical High SLA (All Emergency TIDs)" },
       { name := "20_nodes_mixed_tid", params := "--nWifi=20 --tidCount=24 --criticalTids=8 --emergencyTids=8 --simtime=30 --dataRate=75Mbps", description := "20 nodes - Mixed TID (Emergency + Critical + Non-Critical)" },
       { name := "25_nodes_critical_basic", params := "--nWifi=25 --tidCount=30 --criticalTids=30 --emergencyTids=0 --simtime=30 --dataRate=90Mbps", description := "25 nodes - Critical Basic SLA (All Critical TIDs)" },
       { name := "25_nodes_mixed_tid", params := "--nWifi=25 --tidCount=30 --criticalTids=10 --emergencyTids=10 --simtime=30 --dataRate=90Mbps", description := "25 nodes - Mixed TID (Emergency + Critical + Non-Critical)" },
       { name := "30_nodes_critical_high", params := "--nWifi=30 --tidCount=36 --criticalTids=0 --emergencyTids=36 --simtime=30 --dataRate=100Mbps", description := "30 nodes - Critical High SLA (All Emergency TIDs)" },
       { name := "30_nodes_mixed_tid", params := "--nWifi=30 --tidCount=36 --criticalTids=12 --emergencyTids=12 --simtime=30 --dataRate=100Mbps", description := "30 nodes - Mixed TID (Emergency + Critical + Non-Critical)" },
       { name := "40_nodes_critical_basic", params := "--nWifi=40 --tidCount=48 --criticalTids=48 --emergencyTids=0 --simtime=35 --dataRate=120Mbps", description := "40 nodes - Critical Basic SLA (All Critical TIDs)" },
       { name := "40_nodes_mixed_tid", params := "--nWifi=40 --tidCount=48 --criticalTids=16 --emergencyTids=16 --simtime=35 --dataRate=120Mbps", description := "40 nodes - Mixed TID (Emergency + Critical + Non-Critical)" },
       { name := "50_nodes_critical_high", params := "--nWifi=50 --tidCount=60 --criticalTids=0 --emergencyTids=60 --simtime=35 --dataRate=150Mbps", description := "50 nodes - Critical High SLA (All Emergency TIDs)" },
       { name := "50_nodes_mixed_tid", params := "--nWifi=50 --tidCount=60 --criticalTids=20 --emergencyTids=20 --simtime=35 --dataRate=150Mbps", description := "50 nodes - Mixed TID (Emergency + Critical + Non-Critical)" },
       { name := "60_nodes_critical_basic", params := "--nWifi=60 --tidCount=72 --criticalTids=72 --emergencyTids=0 --simtime=40 --dataRate=180Mbps", description := "60 nodes - Critical Basic SLA (All Critical TIDs)" },
       { name := "60_nodes_mixed_tid", params := "--nWifi=60 --tidCount=72 --criticalTids=24 --emergencyTids=24 --simtime=40 --dataRate=180Mbps", description := "60 nodes - Mixed TID (Emergency + Critical + Non-Critical)" }
     ] }),
  ("critical_performance",
   { description := "Critical traffic handling capabilities",
     tests := [
       { name := "low_critical_ratio_critical_high", params := "--nWifi=30 --tidCount=40 --criticalTids=0 --emergencyTids=8 --simtime=30 --dataRate=120Mbps", description := "Low critical ratio - Critical High SLA (20% Emergency TIDs)" },
       { name := "low_critical_ratio_critical_basic", params := "--nWifi=30 --tidCount=40 --criticalTids=8 --emergencyTids=0 --simtime=30 --dataRate=120Mbps", description := "Low critical ratio - Critical Basic SLA (20% Critical TIDs)" },
       { name := "low_critical_ratio_non_critical", params := "--nWifi=30 --tidCount=40 --criticalTids=0 --emergencyTids=0 --simtime=30 --dataRate=120Mbps", description := "Low critical ratio - Non Critical SLA (All Non-Critical TIDs)" },
       { name := "low_critical_ratio_mixed_tid", params := "--nWifi=30 --tidCount=40 --criticalTids=4 --emergencyTids=4 --simtime=30 --dataRate=120Mbps", description := "Low critical ratio - Mixed TID (Emergency + Critical + Non-Critical)" },
       { name := "medium_critical_ratio_critical_high", params := "--nWifi=30 --tidCount=40 --criticalTids=0 --emergencyTids=16 --simtime=30 --dataRate=120Mbps", description := "Medium critical ratio - Critical High SLA (40% Emergency TIDs)" },
       { name := "medium_critical_ratio_critical_basic", params := "--nWifi=30 --tidCount=40 --criticalTids=16 --emergencyTids=0 --simtime=30 --dataRate=120Mbps", description := "Medium critical ratio - Critical Basic SLA (40% Critical TIDs)" },
       { name := "medium_critical_ratio_non_critical", params := "--nWifi=30 --tidCount=40 --criticalTids=0 --emergencyTids=0 --simtime=30 --dataRate=120Mbps", description := "Medium critical ratio - Non Critical SLA (All Non-Critical TIDs)" },
       { name := "medium_critical_ratio_mixed_tid", params := "--nWifi=30 --tidCount=40 --criticalTids=8 --emergencyTids=8 --simtime=30 --dataRate=120Mbps", description := "Medium critical ratio - Mixed TID (Emergency + Critical + Non-Critical)" }
     ] }),
  ("network_configuration",
   { description := "Basic network configuration parameter testing",
     tests := [
       { name := "basic_ul_ofdma_mixed_tid", params := "--nWifi=20 --tidCount=24 --criticalTids=8 --emergencyTids=8 --simtime=30 --enableUlOfdma=true", description := "Basic UL OFDMA - Mixed TID" },
       { name := "bsrp_enabled_mixed_tid", params := "--nWifi=25 --tidCount=30 --criticalTids=10 --emergencyTids=10 --simtime=30 --enableBsrp=true --enableUlOfdma=true", description := "BSRP enabled with UL OFDMA - Mixed TID (Buffer status reporting)" },
       { name := "medium_congestion_mixed_protocol", params := "--nWifi=25 --tidCount=30 --criticalTids=10 --emergencyTids=10 --simtime=30 --congestionLevel=medium --dataRate=100Mbps", description := "Medium congestion level - Mixed TID (Moderate network stress)" }
     ] }),
  ("protocol_variations",
   { description := "Basic protocol configuration testing",
     tests := [
       { name := "tcp_basic_segments_mixed", params := "--nWifi=20 --tidCount=24 --criticalTids=8 --emergencyTids=8 --simtime=30 --tcpSegmentSize=1500 --dataRate=100Mbps", description := "TCP standard segments - Mixed TID (1.5KB segments)" },
       { name := "mixed_protocol_basic_mobility", params := "--nWifi=20 --tidCount=24 --criticalTids=8 --emergencyTids=8 --simtime=35 --mobility=true --mobilitySpeed=3.0", description := "Mixed protocol with basic mobility - Mixed TID (UDP/TCP alternating)" },
       { name := "mixed_protocol_basic_interference", params := "--nWifi=20 --tidCount=24 --criticalTids=8 --emergencyTids=8 --simtime=30 --interference=true --interferenceIntensity=0.4", description := "Mixed protocol with basic interference - Mixed TID" }
     ] })
]
/-- `self.strategies` set in `MLOSimulationRunner.__init__`. -/
def strategies : List String := ["RoundRobin", "Greedy", "Reliability", "SLA-MLO"]

/-- `self.protocols` set in `MLOSimulationRunner.__init__`. -/
def protocols : List String := ["UDP", "TCP", "Mixed"]

/-- Mirrors `MLOSimulationRunner.generate_test_command`: builds the full
ns-3 command string, the test name (run identifier) and the description
for one (category, scenario, strategy, protocol, seed) cell.
`output_csv_path` is the runner's `self.output_csv_path`; the embedded
single quotes of the shell command are written as `\x27`. -/
def generate_test_command (output_csv_path : String) (scenario_category : String)
    (test_config : TestConfig) (strategy : String) (protocol : String) (seed : Nat) :
    String × String × String :=
  let command :=
    "./ns3 run \x27mlo_simulator " ++
    "--strategy=" ++ strategy ++ " " ++
    "--protocol=" ++ protocol ++ " " ++
    "--seed=" ++ Nat.repr seed ++ " " ++
    "--csvFile=" ++ output_csv_path ++ " " ++
    "--scenario=" ++ scenario_category ++ "_" ++ test_config.name ++ " " ++
    "--runNumber=" ++ Nat.repr seed ++ " " ++
    "--verbose=1 " ++
    test_config.params ++ "\x27"
  let test_name := scenario_category ++ "_" ++ test_config.name ++ "_" ++ strategy ++ "_" ++
    protocol ++ "_" ++ Nat.repr seed
  (command, test_name, test_config.description)

/-- One generated invocation of the matrix expansion in
`run_all_tests`.  The Python code keeps only the triple
`(command, test_name, description)` in `all_tests_to_run`; the record
additionally keeps the cell coordinates and the seed that
`generate_test_command` was called with, so that properties of the
expansion can be stated.  `command`, `runId` and `description` are
exactly the components of the triple returned by
`generate_test_command`. -/
structure Invocation where
  category : String
  scenarioName : String
  strategy : String
  protocol : String
  seed : Nat
  command : String
  runId : String
  description : String
deriving DecidableEq

/-- Builds the `Invocation` record for one cell, with the triple fields
taken from `generate_test_command`. -/
def mkInvocation (csv : String) (cat : String) (tc : TestConfig)
    (strat : String) (prot : String) (seed : Nat) : Invocation :=
  let r := generate_test_command csv cat tc strat prot seed
  { category := cat, scenarioName := tc.name, strategy := strat, protocol := prot,
    seed := seed, command := r.1, runId := r.2.1, description := r.2.2 }

/-- The triple `(command, test_name, description)` appended to
`all_tests_to_run` by the Python loop. -/
def Invocation.triple (i : Invocation) : String × String × String :=
  (i.command, i.runId, i.description)

/- The nested expansion loop of `run_all_tests` (lines 249-265), with the
`test_id_counter` threaded through explicitly.  The counter is
incremented BEFORE each `generate_test_command` call, exactly as
`test_id_counter += 1` precedes the call in the source.  Each level
returns the generated invocations together with the final counter
value. -/

/-- Innermost loop `for protocol in protocols_to_test`. -/
def expandProts (csv : String) (cat : String) (tc : TestConfig) (strat : String) :
    List String → Nat → List Invocation × Nat
  | [], c => ([], c)
  | p :: ps, c =>
    let inv := mkInvocation csv cat tc strat p (c + 1)
    let r := expandProts csv cat tc strat ps (c + 1)
    (inv :: r.1, r.2)

/-- Loop `for strategy in strategies_to_test`. -/
def expandStrats (csv : String) (cat : String) (tc : TestConfig) :
    List String → List String → Nat → List Invocation × Nat
  | [], _, c => ([], c)
  | s :: ss, prots, c =>
    let a := expandProts csv cat tc s prots c
    let b := expandStrats csv cat tc ss prots a.2
    (a.1 ++ b.1, b.2)

/-- Loop `for test_config in category['tests']`. -/
def expandTests (csv : String) (cat : String) :
    List TestConfig → List String → List String → Nat → List Invocation × Nat
  | [], _, _, c => ([], c)
  | tc :: tcs, strats, prots, c =>
    let a := expandStrats csv cat tc strats prots c
    let b := expandTests csv cat tcs strats prots a.2
    (a.1 ++ b.1, b.2)

/-- Outer loop `for category_name in categories_to_run`: a category name
absent from the catalog prints a warning and is skipped
(`if category_name not in self.scenarios: ... continue`). -/
def expandCats (csv : String) (catalog : List (String × Category)) :
    List String → List String → List String → Nat → List Invocation × Nat
  | [], _, _, c => ([], c)
  | cn :: cns, strats, prots, c =>
    match List.lookup cn catalog with
    | none => expandCats csv catalog cns strats prots c
    | some cat =>
      let a := expandTests csv cn cat.tests strats prots c
      let b := expandCats csv catalog cns strats prots a.2
      (a.1 ++ b.1, b.2)

/-- Python truthiness defaulting `x or default` applied to an optional
list argument: `None` and the empty list both select the default
(`categories or list(self.scenarios.keys())` and the analogous lines for
strategies and protocols in `run_all_tests`). -/
def pyOr (arg : Option (List String)) (dflt : List String) : List String :=
  match arg with
  | none => dflt
  | some l => if l.isEmpty then dflt else l

/-- Splitting a character list at every occurrence of a separator, the
structural-recursion counterpart of Python's `str.split` on a one-character
separator (and of `String.splitOn`). -/
def splitOnChar (sep : Char) : List Char → List (List Char)
  | [] => [[]]
  | c :: cs =>
    if c = sep then [] :: splitOnChar sep cs
    else
      match splitOnChar sep cs with
      | [] => [[c]]
      | l :: ls => (c :: l) :: ls

/-- Decimal parsing of a digit string, the behaviour of Python's
`int(...)` on a well-formed all-digit field. -/
def parseNatDigits (l : List Char) : Nat :=
  l.foldl (fun a c => a * 10 + (c.toNat - 48)) 0

/-- The seed counter initialisation of `run_all_tests`:
`test_id_counter = int(self.timestamp.split('_')[1])`, where
`self.timestamp = datetime.now().strftime("%Y%m%d_%H%M%S")`.  The
`HHMMSS` field after the underscore is parsed as a natural number; on a
well-formed timestamp this is exactly `int(...)` of that field (the
`getD` default models the out-of-range case in which `int` would
raise). -/
def seedBase (timestamp : String) : Nat :=
  parseNatDigits ((splitOnChar '_' timestamp.data).getD 1 [])

/-- The invocation list built by `MLOSimulationRunner.run_all_tests`
(lines 240-265): selection defaulting by Python truthiness, then the
nested expansion starting from the timestamp-derived counter. -/
def run_all_tests_invocations (csv : String) (catalog : List (String × Category))
    (timestamp : String) (categories : Option (List String))
    (strategies0 : Option (List String)) (protocols0 : Option (List String)) :
    List Invocation :=
  let categories_to_run := pyOr categories (catalog.map Prod.fst)
  let strategies_to_test := pyOr strategies0 strategies
  let protocols_to_test := pyOr protocols0 protocols
  (expandCats csv catalog categories_to_run strategies_to_test protocols_to_test
    (seedBase timestamp)).1

/-- The categories the loop warns about and skips
(`category_name not in self.scenarios`). -/
def skippedCategories (catalog : List (String × Category)) (categories_to_run : List String) :
    List String :=
  categories_to_run.filter (fun cn => (List.lookup cn catalog).isNone)

/- Model of one worker executing `run_single_test`.  The subprocess call
`subprocess.run(command, shell=True, ...)` is an external effect; its
outcome is an oracle input: either the process terminated (a return code
plus captured stdout/stderr) or process creation raised a Python
exception with the given text.  The `except Exception` block of the
source catches every exception raised inside the `try`. -/

/-- Outcome of the `subprocess.run` call, supplied by the environment. -/
inductive ProcOutcome where
  | completed (returncode : Int) (stdout : String) (stderr : String)
  | raised (msg : String)
deriving DecidableEq

/-- One file write performed by `run_single_test`: `mode_append = false`
models `open(path, 'w')` (truncate and write), `mode_append = true`
models `open(path, 'a')` (append). -/
structure LogWrite where
  mode_append : Bool
  path : String
  content : String
deriving DecidableEq

/-- Mirrors `MLOSimulationRunner.run_single_test` (`testing_script.py`
lines 188-229).  `test_info` is the `(command, test_name, description)`
triple; `log_dir` and `timestamp` are the runner fields `self.log_dir`
(rendered as a string) and `self.timestamp`; `now_iso` is the value of
`datetime.now().isoformat()` and `exec_time` the already-rendered
`f"{execution_time:.2f}"` text, both opaque environment inputs.  Returns
the boolean result of the Python function together with the log-file
write it performs.  On a raised exception the function catches it
(returning normally) and appends only the exception section to the log
path, exactly as the `except` block does with `open(log_file_path, 'a')`. -/
def run_single_test (log_dir : String) (timestamp : String)
    (test_info : String × String × String) (outcome : ProcOutcome)
    (now_iso : String) (exec_time : String) : Bool × LogWrite :=
  let command := test_info.1
  let test_name := test_info.2.1
  let description := test_info.2.2
  let log_file_path := log_dir ++ "/" ++ test_name ++ "_" ++ timestamp ++ ".log"
  match outcome with
  | ProcOutcome.completed returncode stdout stderr =>
    let content :=
      "--- TEST DETAILS ---" ++ "\n" ++
      "Test Name: " ++ test_name ++ "\n" ++
      "Description: " ++ description ++ "\n" ++
      "Timestamp: " ++ now_iso ++ "\n" ++
      "Execution Time: " ++ exec_time ++ " seconds\n" ++
      "Return Code: " ++ toString returncode ++ "\n" ++ "\n" ++
      "--- COMMAND ---\n" ++ command ++ "\n" ++ "\n" ++
      "--- STDOUT ---\n" ++ stdout ++ "\n" ++
      "--- STDERR ---\n" ++ stderr
    (returncode == 0, { mode_append := false, path := log_file_path, content := content })
  | ProcOutcome.raised msg =>
    (false,
     { mode_append := true, path := log_file_path,
       content := "\n--- PYTHON EXCEPTION ---\n" ++ msg })

/-- Mirrors `MLOExtremeSimulationRunner.run_single_test`
(`testing_script_extreme.py` lines 254-295).  Identical to the basic
runner's executor except that the first header line written is
`--- EXTREME TEST DETAILS ---`. -/
def extreme_run_single_test (log_dir : String) (timestamp : String)
    (test_info : String × String × String) (outcome : ProcOutcome)
    (now_iso : String) (exec_time : String) : Bool × LogWrite :=
  let command := test_info.1
  let test_name := test_info.2.1
  let description := test_info.2.2
  let log_file_path := log_dir ++ "/" ++ test_name ++ "_" ++ timestamp ++ ".log"
  match outcome with
  | ProcOutcome.completed returncode stdout stderr =>
    let content :=
      "--- EXTREME TEST DETAILS ---" ++ "\n" ++
      "Test Name: " ++ test_name ++ "\n" ++
      "Description: " ++ description ++ "\n" ++
      "Timestamp: " ++ now_iso ++ "\n" ++
      "Execution Time: " ++ exec_time ++ " seconds\n" ++
      "Return Code: " ++ toString returncode ++ "\n" ++ "\n" ++
      "--- COMMAND ---\n" ++ command ++ "\n" ++ "\n" ++
      "--- STDOUT ---\n" ++ stdout ++ "\n" ++
      "--- STDERR ---\n" ++ stderr
    (returncode == 0, { mode_append := false, path := log_file_path, content := content })
  | ProcOutcome.raised msg =>
    (false,
     { mode_append := true, path := log_file_path,
       content := "\n--- PYTHON EXCEPTION ---\n" ++ msg })

/- Result collection of `run_all_tests` (lines 273-285).  Each submitted
future resolves either to the boolean returned by `run_single_test`
(`future.result()`) or to a worker-level exception re-raised by
`future.result()` and caught by the `except Exception as exc` arm. -/

/-- What `future.result()` yields for one submitted invocation. -/
inductive WorkerOutcome where
  | ret (success : Bool)
  | exc (msg : String)
deriving DecidableEq

/-- The `as_completed` folding loop: starting from
`successful_runs = 0` and `failed_runs = 0`, a normally returned `True`
increments `successful_runs`, a returned `False` increments
`failed_runs`, and a worker exception is caught and also increments
`failed_runs`.  Returns `(successful_runs, failed_runs)`. -/
def collect_results (outcomes : List WorkerOutcome) : Nat × Nat :=
  outcomes.foldl
    (fun acc o =>
      match o with
      | WorkerOutcome.ret true => (acc.1 + 1, acc.2)
      | WorkerOutcome.ret false => (acc.1, acc.2 + 1)
      | WorkerOutcome.exc _ => (acc.1, acc.2 + 1))
    (0, 0)

/-- Observable outcome of one whole `run_all_tests` call: the category
names warned about and skipped, the number of invocations submitted to
the pool, and the final counters printed in the summary.  The Python
function always reaches the final summary prints and returns `None`;
there is no abort path. -/
structure RunReport where
  skipped : List String
  total : Nat
  successful_runs : Nat
  failed_runs : Nat
deriving DecidableEq

/-- The whole `MLOSimulationRunner.run_all_tests` (lines 231-296) as a
function of the selection arguments and of the per-invocation worker
outcomes (one `WorkerOutcome` per submitted invocation, in completion
order). -/
def run_all_tests_report (csv : String) (catalog : List (String × Category))
    (timestamp : String) (categories : Option (List String))
    (strategies0 : Option (List String)) (protocols0 : Option (List String))
    (outcomes : List WorkerOutcome) : RunReport :=
  let categories_to_run := pyOr categories (catalog.map Prod.fst)
  let invs := run_all_tests_invocations csv catalog timestamp categories strategies0 protocols0
  let counts := collect_results outcomes
  { skipped := skippedCategories catalog categories_to_run,
    total := invs.length,
    successful_runs := counts.1,
    failed_runs := counts.2 }

/- Derived views used to state properties of the expansion. -/

/-- The matrix cell (category, scenario name, strategy, protocol) of an
invocation. -/
def cell (i : Invocation) : String × String × String × String :=
  (i.category, i.scenarioName, i.strategy, i.protocol)

/-- The scenario list of a category
(`self.scenarios[category_name]['tests']`), `[]` for an absent
category. -/
def scenariosFor (catalog : List (String × Category)) (cn : String) : List TestConfig :=
  ((List.lookup cn catalog).map Category.tests).getD []

/-- Specification-side definition, following the words of the spec: the
Cartesian product of the selection "enumerated in nested order category,
then scenario in catalog order, then strategy, then protocol", one cell
per invocation. -/
def cartesianCells (catalog : List (String × Category)) (cats strats prots : List String) :
    List (String × String × String × String) :=
  cats.flatMap fun cn =>
    (scenariosFor catalog cn).flatMap fun tc =>
      strats.flatMap fun s =>
        prots.map fun p => (cn, tc.name, s, p)

/- Decimal rendering of natural numbers.  `Nat.repr` is defined in core
through the fuel-based `Nat.toDigitsCore`; `natDigits` computes the same
digit list by structural division.  The lemmas below (agreement with
`Nat.repr`, every character is a decimal digit, injectivity) let us
recover the seed from the tail of a run identifier. -/

/-- The decimal digit characters of `n`, most significant first. -/
def natDigits (n : Nat) : List Char :=
  if _h : n < 10 then [Nat.digitChar n]
  else natDigits (n / 10) ++ [Nat.digitChar (n % 10)]
decreasing_by exact Nat.div_lt_self (by omega) (by omega)

/-- Numeric value of a decimal digit character. -/
def digitVal (c : Char) : Nat := c.toNat - 48

/-- The maximal run of decimal digits at the end of a string, in
reversed order.  The seed of a generated run identifier is recoverable
from this block, whatever the other identifier components contain. -/
def trailingDigitsRev (s : String) : List Char := s.data.reverse.takeWhile Char.isDigit

/-- The lines of a log artifact: its text split at every newline
character. -/
def lines (s : String) : List String :=
  (splitOnChar '\n' s.data).map List.asString

/-- The run identifier of a generated invocation is its own coordinates
joined by underscores, ending with the decimal seed. -/
def IdShape (i : Invocation) : Prop :=
  i.runId = i.category ++ "_" ++ i.scenarioName ++ "_" ++ i.strategy ++ "_" ++
    i.protocol ++ "_" ++ Nat.repr i.seed

/-- Specification-side definition, following the words of the spec's §6
command shape: the fixed orchestration-level flags with the run number
kept as a separate argument, so that the theorem relating it to
`generate_test_command` exhibits that the run number equals the seed. -/
def specCommandFlags (strategy protocol : String) (seed : Nat) (csvFile scenarioId : String)
    (runNumber : Nat) : String :=
  "--strategy=" ++ strategy ++ " " ++
  "--protocol=" ++ protocol ++ " " ++
  "--seed=" ++ Nat.repr seed ++ " " ++
  "--csvFile=" ++ csvFile ++ " " ++
  "--scenario=" ++ scenarioId ++ " " ++
  "--runNumber=" ++ Nat.repr runNumber ++ " " ++
  "--verbose=1 "

/-- Specification-side definition, following the words of the spec's §6
log artifact block: the sections in fixed order (details header with
Test Name, Description, Timestamp, Execution Time, Return Code lines,
then COMMAND, STDOUT, STDERR).  The details header line is a parameter
so that both runners can be compared against it. -/
def specLogArtifact (header testName descr nowIso execTime : String) (returncode : Int)
    (command stdout stderr : String) : String :=
  header ++ "\n" ++
  "Test Name: " ++ testName ++ "\n" ++
  "Description: " ++ descr ++ "\n" ++
  "Timestamp: " ++ nowIso ++ "\n" ++
  "Execution Time: " ++ execTime ++ " seconds\n" ++
  "Return Code: " ++ toString returncode ++ "\n" ++
  "\n" ++
  "--- COMMAND ---\n" ++ command ++ "\n" ++
  "\n" ++
  "--- STDOUT ---\n" ++ stdout ++ "\n" ++
  "--- STDERR ---\n" ++ stderr

theorem toDigitsCore_eq_natDigits :
    ∀ (fuel n : Nat) (ds : List Char), n < fuel →
      Nat.toDigitsCore 10 fuel n ds = natDigits n ++ ds := by
  intro fuel
  induction fuel with
  | zero => intro n ds h; omega
  | succ fuel ih =>
    intro n ds h
    by_cases h10 : n / 10 = 0
    · have hlt : n < 10 := by omega
      rw [Nat.toDigitsCore, natDigits]
      simp [h10, hlt, Nat.mod_eq_of_lt hlt]
    · have hge : ¬ n < 10 := fun hc => h10 (Nat.div_eq_of_lt hc)
      have hdiv : n / 10 < n := Nat.div_lt_self (by omega) (by omega)
      rw [Nat.toDigitsCore]
      simp only [h10, if_false, ite_false]
      rw [ih (n / 10) _ (by omega)]
      conv_rhs => rw [natDigits]
      simp [hge]

theorem repr_eq_natDigits (n : Nat) : Nat.repr n = (natDigits n).asString := by
  show (Nat.toDigits 10 n).asString = _
  rw [Nat.toDigits, toDigitsCore_eq_natDigits (n + 1) n [] (by omega)]
  simp

theorem data_asString (l : List Char) : (l.asString).data = l := rfl

theorem digitChar_isDigit : ∀ m, m < 10 → (Nat.digitChar m).isDigit = true := by decide

theorem natDigits_isDigit (n : Nat) : ∀ c ∈ natDigits n, c.isDigit = true := by
  induction n using Nat.strong_induction_on with
  | _ n ih =>
    intro c hc
    rw [natDigits] at hc
    by_cases h : n < 10
    · simp only [h, dite_true] at hc
      simp only [List.mem_singleton] at hc
      subst hc
      exact digitChar_isDigit n h
    · simp only [h, dite_false, List.mem_append, List.mem_singleton] at hc
      rcases hc with hc | hc
      · exact ih (n / 10) (Nat.div_lt_self (by omega) (by omega)) c hc
      · subst hc
        exact digitChar_isDigit (n % 10) (Nat.mod_lt n (by omega))

theorem digitVal_digitChar : ∀ m, m < 10 → digitVal (Nat.digitChar m) = m := by decide

theorem foldl_natDigits (n : Nat) : ∀ a : Nat,
    (natDigits n).foldl (fun acc c => acc * 10 + digitVal c) a
      = a * 10 ^ (natDigits n).length + n := by
  induction n using Nat.strong_induction_on with
  | _ n ih =>
    intro a
    rw [natDigits]
    by_cases h : n < 10
    · simp [h, digitVal_digitChar n h]
    · have hdiv : n / 10 < n := Nat.div_lt_self (by omega) (by omega)
      simp only [h, dite_false]
      rw [List.foldl_append]
      simp only [List.foldl_cons, List.foldl_nil]
      rw [ih (n / 10) hdiv a, digitVal_digitChar (n % 10) (Nat.mod_lt n (by omega))]
      simp only [List.length_append, List.length_singleton, pow_succ]
      rw [Nat.add_mul, Nat.mul_assoc, Nat.add_assoc]
      have hmod : n / 10 * 10 + n % 10 = n := by omega
      rw [hmod]

theorem ofDigits_natDigits (n : Nat) :
    (natDigits n).foldl (fun acc c => acc * 10 + digitVal c) 0 = n := by
  simpa using foldl_natDigits n 0

theorem natDigits_injective {m n : Nat} (h : natDigits m = natDigits n) : m = n := by
  have hm := ofDigits_natDigits m
  rw [h, ofDigits_natDigits] at hm
  omega

theorem repr_injective {m n : Nat} (h : Nat.repr m = Nat.repr n) : m = n := by
  apply natDigits_injective
  have hdata : (Nat.repr m).data = (Nat.repr n).data := by rw [h]
  rwa [repr_eq_natDigits, repr_eq_natDigits, data_asString, data_asString] at hdata

theorem takeWhile_append_all {p : Char → Bool} (A : List Char) (b : Char) (B : List Char)
    (hA : ∀ c ∈ A, p c = true) (hb : p b = false) :
    (A ++ b :: B).takeWhile p = A := by
  induction A with
  | nil => simp [List.takeWhile, hb]
  | cons a as ih =>
    simp only [List.cons_append, List.takeWhile]
    rw [hA a (by simp)]
    exact congrArg (a :: ·) (ih (fun c hc => hA c (by simp [hc])))

theorem mkInvocation_idShape (csv cat : String) (tc : TestConfig) (s p : String) (n : Nat) :
    IdShape (mkInvocation csv cat tc s p n) := rfl

theorem mkInvocation_seed (csv cat : String) (tc : TestConfig) (s p : String) (n : Nat) :
    (mkInvocation csv cat tc s p n).seed = n := rfl

theorem mkInvocation_cell (csv cat : String) (tc : TestConfig) (s p : String) (n : Nat) :
    cell (mkInvocation csv cat tc s p n) = (cat, tc.name, s, p) := rfl

/- Structure of the nested expansion, one lemma group per loop level:
the final counter value, the generated seeds, the generated matrix
cells, and the identifier shape of every generated invocation. -/

theorem expandProts_snd (csv cat : String) (tc : TestConfig) (strat : String)
    (ps : List String) : ∀ c : Nat,
    (expandProts csv cat tc strat ps c).2
      = c + (expandProts csv cat tc strat ps c).1.length := by
  induction ps with
  | nil => intro c; simp [expandProts]
  | cons p ps ih =>
    intro c
    simp only [expandProts, List.length_cons]
    rw [ih (c + 1)]
    omega

theorem expandProts_length (csv cat : String) (tc : TestConfig) (strat : String)
    (ps : List String) : ∀ c : Nat,
    (expandProts csv cat tc strat ps c).1.length = ps.length := by
  induction ps with
  | nil => intro c; simp [expandProts]
  | cons p ps ih => intro c; simp only [expandProts, List.length_cons, ih (c + 1)]

theorem expandProts_map_seed (csv cat : String) (tc : TestConfig) (strat : String)
    (ps : List String) : ∀ c : Nat,
    (expandProts csv cat tc strat ps c).1.map Invocation.seed
      = List.range' (c + 1) ps.length := by
  induction ps with
  | nil => intro c; simp [expandProts]
  | cons p ps ih =>
    intro c
    simp only [expandProts, List.map_cons, List.length_cons, List.range'_succ]
    rw [ih (c + 1)]
    rfl

theorem expandProts_map_cell (csv cat : String) (tc : TestConfig) (strat : String)
    (ps : List String) : ∀ c : Nat,
    (expandProts csv cat tc strat ps c).1.map cell
      = ps.map (fun p => (cat, tc.name, strat, p)) := by
  induction ps with
  | nil => intro c; simp [expandProts]
  | cons p ps ih =>
    intro c
    simp only [expandProts, List.map_cons]
    rw [ih (c + 1)]
    rfl

theorem expandProts_idShape (csv cat : String) (tc : TestConfig) (strat : String)
    (ps : List String) : ∀ c : Nat, ∀ inv ∈ (expandProts csv cat tc strat ps c).1,
    IdShape inv := by
  induction ps with
  | nil => intro c inv h; simp [expandProts] at h
  | cons p ps ih =>
    intro c inv h
    simp only [expandProts, List.mem_cons] at h
    rcases h with h | h
    · subst h; exact mkInvocation_idShape csv cat tc strat p (c + 1)
    · exact ih (c + 1) inv h

theorem expandStrats_snd (csv cat : String) (tc : TestConfig)
    (ss : List String) : ∀ (ps : List String) (c : Nat),
    (expandStrats csv cat tc ss ps c).2
      = c + (expandStrats csv cat tc ss ps c).1.length := by
  induction ss with
  | nil => intro ps c; simp [expandStrats]
  | cons s ss ih =>
    intro ps c
    simp only [expandStrats, List.length_append]
    rw [ih ps, expandProts_snd, expandProts_length]
    omega

theorem expandStrats_length (csv cat : String) (tc : TestConfig)
    (ss : List String) : ∀ (ps : List String) (c : Nat),
    (expandStrats csv cat tc ss ps c).1.length = ss.length * ps.length := by
  induction ss with
  | nil => intro ps c; simp [expandStrats]
  | cons s ss ih =>
    intro ps c
    simp only [expandStrats, List.length_append, List.length_cons]
    rw [ih ps, expandProts_length]
    ring

theorem expandStrats_map_seed (csv cat : String) (tc : TestConfig)
    (ss : List String) : ∀ (ps : List String) (c : Nat),
    (expandStrats csv cat tc ss ps c).1.map Invocation.seed
      = List.range' (c + 1) (ss.length * ps.length) := by
  induction ss with
  | nil => intro ps c; simp [expandStrats]
  | cons s ss ih =>
    intro ps c
    simp only [expandStrats, List.map_append, List.length_cons]
    rw [ih ps, expandProts_map_seed, expandProts_snd, expandProts_length]
    have := List.range'_append (c + 1) ps.length (ss.length * ps.length) 1
    simp only [one_mul] at this
    rw [show c + ps.length + 1 = c + 1 + ps.length by omega, this]
    congr 1
    ring

theorem expandStrats_map_cell (csv cat : String) (tc : TestConfig)
    (ss : List String) : ∀ (ps : List String) (c : Nat),
    (expandStrats csv cat tc ss ps c).1.map cell
      = ss.flatMap (fun s => ps.map (fun p => (cat, tc.name, s, p))) := by
  induction ss with
  | nil => intro ps c; simp [expandStrats]
  | cons s ss ih =>
    intro ps c
    simp only [expandStrats, List.map_append, List.flatMap_cons]
    rw [ih ps, expandProts_map_cell]

theorem expandStrats_idShape (csv cat : String) (tc : TestConfig)
    (ss : List String) : ∀ (ps : List String) (c : Nat),
    ∀ inv ∈ (expandStrats csv cat tc ss ps c).1, IdShape inv := by
  induction ss with
  | nil => intro ps c inv h; simp [expandStrats] at h
  | cons s ss ih =>
    intro ps c inv h
    simp only [expandStrats, List.mem_append] at h
    rcases h with h | h
    · exact expandProts_idShape csv cat tc s ps c inv h
    · exact ih ps _ inv h

theorem expandTests_snd (csv cat : String)
    (tcs : List TestConfig) : ∀ (ss ps : List String) (c : Nat),
    (expandTests csv cat tcs ss ps c).2
      = c + (expandTests csv cat tcs ss ps c).1.length := by
  induction tcs with
  | nil => intro ss ps c; simp [expandTests]
  | cons tc tcs ih =>
    intro ss ps c
    simp only [expandTests, List.length_append]
    rw [ih ss ps, expandStrats_snd, expandStrats_length]
    omega

theorem expandTests_length (csv cat : String)
    (tcs : List TestConfig) : ∀ (ss ps : List String) (c : Nat),
    (expandTests csv cat tcs ss ps c).1.length
      = tcs.length * (ss.length * ps.length) := by
  induction tcs with
  | nil => intro ss ps c; simp [expandTests]
  | cons tc tcs ih =>
    intro ss ps c
    simp only [expandTests, List.length_append, List.length_cons]
    rw [ih ss ps, expandStrats_length]
    ring

theorem expandTests_map_seed (csv cat : String)
    (tcs : List TestConfig) : ∀ (ss ps : List String) (c : Nat),
    (expandTests csv cat tcs ss ps c).1.map Invocation.seed
      = List.range' (c + 1) (tcs.length * (ss.length * ps.length)) := by
  induction tcs with
  | nil => intro ss ps c; simp [expandTests]
  | cons tc tcs ih =>
    intro ss ps c
    simp only [expandTests, List.map_append, List.length_cons]
    rw [ih ss ps, expandStrats_map_seed, expandStrats_snd, expandStrats_length]
    have h := List.range'_append (c + 1) (ss.length * ps.length)
      (tcs.length * (ss.length * ps.length)) 1
    simp only [one_mul] at h
    rw [show c + ss.length * ps.length + 1 = c + 1 + ss.length * ps.length by omega, h]
    congr 1
    ring

theorem expandTests_map_cell (csv cat : String)
    (tcs : List TestConfig) : ∀ (ss ps : List String) (c : Nat),
    (expandTests csv cat tcs ss ps c).1.map cell
      = tcs.flatMap (fun tc => ss.flatMap (fun s => ps.map (fun p => (cat, tc.name, s, p)))) := by
  induction tcs with
  | nil => intro ss ps c; simp [expandTests]
  | cons tc tcs ih =>
    intro ss ps c
    simp only [expandTests, List.map_append, List.flatMap_cons]
    rw [ih ss ps, expandStrats_map_cell]

theorem expandTests_idShape (csv cat : String)
    (tcs : List TestConfig) : ∀ (ss ps : List String) (c : Nat),
    ∀ inv ∈ (expandTests csv cat tcs ss ps c).1, IdShape inv := by
  induction tcs with
  | nil => intro ss ps c inv h; simp [expandTests] at h
  | cons tc tcs ih =>
    intro ss ps c inv h
    simp only [expandTests, List.mem_append] at h
    rcases h with h | h
    · exact expandStrats_idShape csv cat tc ss ps c inv h
    · exact ih ss ps _ inv h

theorem expandCats_snd (csv : String) (catalog : List (String × Category))
    (cns : List String) : ∀ (ss ps : List String) (c : Nat),
    (expandCats csv catalog cns ss ps c).2
      = c + (expandCats csv catalog cns ss ps c).1.length := by
  induction cns with
  | nil => intro ss ps c; simp [expandCats]
  | cons cn cns ih =>
    intro ss ps c
    cases h : List.lookup cn catalog with
    | none => simp only [expandCats, h]; exact ih ss ps c
    | some cat =>
      simp only [expandCats, h, List.length_append]
      rw [ih ss ps, expandTests_snd, expandTests_length]
      omega

theorem expandCats_length (csv : String) (catalog : List (String × Category))
    (cns : List String) : ∀ (ss ps : List String) (c : Nat),
    (expandCats csv catalog cns ss ps c).1.length
      = (cns.map (fun cn => (scenariosFor catalog cn).length * (ss.length * ps.length))).sum := by
  induction cns with
  | nil => intro ss ps c; simp [expandCats]
  | cons cn cns ih =>
    intro ss ps c
    cases h : List.lookup cn catalog with
    | none =>
      simp only [expandCats, h, List.map_cons, List.sum_cons]
      rw [ih ss ps]
      simp [scenariosFor, h]
    | some cat =>
      simp only [expandCats, h, List.length_append, List.map_cons, List.sum_cons]
      rw [ih ss ps, expandTests_length]
      simp [scenariosFor, h]

theorem expandCats_map_seed (csv : String) (catalog : List (String × Category))
    (cns : List String) : ∀ (ss ps : List String) (c : Nat),
    (expandCats csv catalog cns ss ps c).1.map Invocation.seed
      = List.range' (c + 1) (expandCats csv catalog cns ss ps c).1.length := by
  induction cns with
  | nil => intro ss ps c; simp [expandCats]
  | cons cn cns ih =>
    intro ss ps c
    cases h : List.lookup cn catalog with
    | none => simp only [expandCats, h]; exact ih ss ps c
    | some cat =>
      simp only [expandCats, h, List.map_append, List.length_append]
      rw [ih ss ps, expandTests_map_seed, expandTests_snd, expandTests_length]
      have hr := List.range'_append (c + 1) (cat.tests.length * (ss.length * ps.length))
        (expandCats csv catalog cns ss ps
          (c + cat.tests.length * (ss.length * ps.length))).1.length 1
      simp only [one_mul] at hr
      rw [show c + cat.tests.length * (ss.length * ps.length) + 1
            = c + 1 + cat.tests.length * (ss.length * ps.length) by omega, hr]
      congr 1
      omega

theorem expandCats_map_cell (csv : String) (catalog : List (String × Category))
    (cns : List String) : ∀ (ss ps : List String) (c : Nat),
    (expandCats csv catalog cns ss ps c).1.map cell
      = cartesianCells catalog cns ss ps := by
  induction cns with
  | nil => intro ss ps c; simp [expandCats, cartesianCells]
  | cons cn cns ih =>
    intro ss ps c
    cases h : List.lookup cn catalog with
    | none =>
      simp only [expandCats, h, cartesianCells, List.flatMap_cons]
      rw [ih ss ps]
      simp [scenariosFor, h, cartesianCells]
    | some cat =>
      simp only [expandCats, h, List.map_append, cartesianCells, List.flatMap_cons]
      rw [ih ss ps, expandTests_map_cell]
      simp [scenariosFor, h, cartesianCells]

theorem expandCats_idShape (csv : String) (catalog : List (String × Category))
    (cns : List String) : ∀ (ss ps : List String) (c : Nat),
    ∀ inv ∈ (expandCats csv catalog cns ss ps c).1, IdShape inv := by
  induction cns with
  | nil => intro ss ps c inv h; simp [expandCats] at h
  | cons cn cns ih =>
    intro ss ps c inv h
    cases hl : List.lookup cn catalog with
    | none =>
      rw [show expandCats csv catalog (cn :: cns) ss ps c
            = expandCats csv catalog cns ss ps c by simp only [expandCats, hl]] at h
      exact ih ss ps c inv h
    | some cat =>
      simp only [expandCats, hl, List.mem_append] at h
      rcases h with h | h
      · exact expandTests_idShape csv cn cat.tests ss ps c inv h
      · exact ih ss ps _ inv h

theorem collect_results_foldl (outcomes : List WorkerOutcome) : ∀ a b : Nat,
    (outcomes.foldl
      (fun acc o =>
        match o with
        | WorkerOutcome.ret true => (acc.1 + 1, acc.2)
        | WorkerOutcome.ret false => (acc.1, acc.2 + 1)
        | WorkerOutcome.exc _ => (acc.1, acc.2 + 1)) (a, b)).1
    + (outcomes.foldl
      (fun acc o =>
        match o with
        | WorkerOutcome.ret true => (acc.1 + 1, acc.2)
        | WorkerOutcome.ret false => (acc.1, acc.2 + 1)
        | WorkerOutcome.exc _ => (acc.1, acc.2 + 1)) (a, b)).2
    = a + b + outcomes.length := by
  induction outcomes with
  | nil => intro a b; simp
  | cons o os ih =>
    intro a b
    cases o with
    | ret s =>
      cases s with
      | true => simp only [List.foldl_cons, List.length_cons]; rw [ih (a + 1) b]; omega
      | false => simp only [List.foldl_cons, List.length_cons]; rw [ih a (b + 1)]; omega
    | exc m => simp only [List.foldl_cons, List.length_cons]; rw [ih a (b + 1)]; omega

theorem collect_results_sum (outcomes : List WorkerOutcome) :
    (collect_results outcomes).1 + (collect_results outcomes).2 = outcomes.length := by
  unfold collect_results
  simpa using collect_results_foldl outcomes 0 0

theorem trailingDigitsRev_append (pre : String) (n : Nat) :
    trailingDigitsRev (pre ++ "_" ++ Nat.repr n) = (natDigits n).reverse := by
  unfold trailingDigitsRev
  rw [String.data_append, String.data_append, repr_eq_natDigits, data_asString]
  have hdata : ("_" : String).data = ['_'] := rfl
  rw [hdata, List.reverse_append, List.reverse_append]
  simp only [List.reverse_singleton, List.singleton_append, List.append_assoc]
  exact takeWhile_append_all _ '_' _
    (fun c hc => natDigits_isDigit n c (List.mem_reverse.mp hc)) (by decide)

theorem lookup_mem {β : Type} :
    ∀ (l : List (String × β)) (k : String) (v : β),
      List.lookup k l = some v → (k, v) ∈ l := by
  intro l
  induction l with
  | nil => intro k v h; simp [List.lookup] at h
  | cons e l ih =>
    intro k v h
    cases e with
    | mk a b =>
      rw [List.lookup] at h
      cases hke : (k == a) with
      | true =>
        rw [hke] at h
        obtain rfl : b = v := by injection h
        obtain rfl : k = a := eq_of_beq hke
        exact List.mem_cons_self _ _
      | false =>
        rw [hke] at h
        exact List.mem_cons_of_mem _ (ih k v h)

theorem scenarios_names_nodup :
    ∀ e ∈ scenarios, ((e.2.tests).map TestConfig.name).Nodup := by decide

theorem scenariosFor_names_nodup (cn : String) :
    ((scenariosFor scenarios cn).map TestConfig.name).Nodup := by
  unfold scenariosFor
  cases h : List.lookup cn scenarios with
  | none => simp
  | some cat =>
    show ((cat.tests).map TestConfig.name).Nodup
    exact scenarios_names_nodup (cn, cat) (lookup_mem scenarios cn cat h)

theorem cartesianCells_nodup (catalog : List (String × Category))
    (cats strats prots : List String)
    (hc : cats.Nodup) (hs : strats.Nodup) (hp : prots.Nodup)
    (hnames : ∀ cn, ((scenariosFor catalog cn).map TestConfig.name).Nodup) :
    (cartesianCells catalog cats strats prots).Nodup := by
  unfold cartesianCells
  rw [List.nodup_flatMap]
  refine ⟨fun cn _ => ?_, ?_⟩
  · rw [List.nodup_flatMap]
    refine ⟨fun tc _ => ?_, ?_⟩
    · rw [List.nodup_flatMap]
      refine ⟨fun s _ => ?_, ?_⟩
      · exact hp.map (fun p p' hpp => by simpa using congrArg (fun x => x.2.2.2) hpp)
      · refine hs.imp ?_
        intro s s' hne x hx hx'
        simp only [List.mem_map] at hx hx'
        obtain ⟨p, -, rfl⟩ := hx
        obtain ⟨p', -, heq⟩ := hx'
        exact hne ((congrArg (fun x => x.2.2.1) heq).symm)
    · have hpair : (scenariosFor catalog cn).Pairwise (fun a b => a.name ≠ b.name) :=
        List.pairwise_map.mp (hnames cn)
      refine hpair.imp ?_
      intro tc tc' hne x hx hx'
      simp only [List.mem_flatMap, List.mem_map] at hx hx'
      obtain ⟨s, -, p, -, rfl⟩ := hx
      obtain ⟨s', -, p', -, heq⟩ := hx'
      exact hne ((congrArg (fun x => x.2.1) heq).symm)
  · refine hc.imp ?_
    intro cn cn' hne x hx hx'
    simp only [List.mem_flatMap, List.mem_map] at hx hx'
    obtain ⟨tc, -, s, -, p, -, rfl⟩ := hx
    obtain ⟨tc', -, s', -, p', -, heq⟩ := hx'
    exact hne ((congrArg (fun x => x.1) heq).symm)

theorem expandCats_runIds_nodup (csv : String) (catalog : List (String × Category))
    (cns ss ps : List String) (c : Nat) :
    ((expandCats csv catalog cns ss ps c).1.map Invocation.runId).Nodup := by
  have hnodupseed : ((expandCats csv catalog cns ss ps c).1.map Invocation.seed).Nodup := by
    rw [expandCats_map_seed]
    exact List.nodup_range' _ _
  apply List.Nodup.of_map trailingDigitsRev
  rw [List.map_map]
  have hmap : (expandCats csv catalog cns ss ps c).1.map (trailingDigitsRev ∘ Invocation.runId)
      = (expandCats csv catalog cns ss ps c).1.map (fun i => (natDigits i.seed).reverse) := by
    apply List.map_congr_left
    intro inv hinv
    have hid := expandCats_idShape csv catalog cns ss ps c inv hinv
    show trailingDigitsRev inv.runId = _
    rw [hid]
    exact trailingDigitsRev_append
      (inv.category ++ "_" ++ inv.scenarioName ++ "_" ++ inv.strategy ++ "_" ++ inv.protocol)
      inv.seed
  rw [hmap]
  rw [show (fun i : Invocation => (natDigits i.seed).reverse)
        = (fun n : Nat => (natDigits n).reverse) ∘ Invocation.seed from rfl,
      ← List.map_map]
  exact hnodupseed.map (fun a b hab => natDigits_injective (List.reverse_injective hab))

/- The claims of the specification. -/

/-- C1: for every selection whose categories are all present in the
catalog (selection lists being duplicate-free), the expansion loop of
`run_all_tests` produces exactly one invocation per
(category, scenario, strategy, protocol) cell, enumerated in nested
order category, then scenario in catalog order, then strategy, then
protocol, with no duplicates; the total count is the sum over selected
categories of (scenarios in category) × |strategies| × |protocols|; in
particular `baseline` (12 scenarios) with 2 strategies and 2 protocols
yields exactly 48 invocations. -/
theorem matrix_expansion_cartesian (csv : String) (cats strats prots : List String) (c0 : Nat)
    (_hpresent : ∀ cn ∈ cats, (List.lookup cn scenarios).isSome = true)
    (hc : cats.Nodup) (hs : strats.Nodup) (hp : prots.Nodup) :
    ((expandCats csv scenarios cats strats prots c0).1.map cell
        = cartesianCells scenarios cats strats prots)
    ∧ ((expandCats csv scenarios cats strats prots c0).1.map cell).Nodup
    ∧ (expandCats csv scenarios cats strats prots c0).1.length
        = (cats.map (fun cn =>
            (scenariosFor scenarios cn).length * (strats.length * prots.length))).sum
    ∧ (expandCats csv scenarios ["baseline"] ["RoundRobin", "Greedy"] ["UDP", "TCP"] c0).1.length
        = 48 := by
  refine ⟨expandCats_map_cell csv scenarios cats strats prots c0, ?_,
    expandCats_length csv scenarios cats strats prots c0, ?_⟩
  · rw [expandCats_map_cell]
    exact cartesianCells_nodup scenarios cats strats prots hc hs hp scenariosFor_names_nodup
  · rw [expandCats_length]
    decide

/-- Witness for C1: the concrete selection of the claim's example,
category `baseline` with strategies RoundRobin, Greedy and protocols
UDP, TCP, gives exactly 48 invocations. -/
theorem matrix_expansion_cartesian_witness :
    (expandCats "scratch/output_files_csv/mlo_unified_results.csv" scenarios
      ["baseline"] ["RoundRobin", "Greedy"] ["UDP", "TCP"] 0).1.length = 48 :=
  (matrix_expansion_cartesian "scratch/output_files_csv/mlo_unified_results.csv"
    ["baseline"] ["RoundRobin", "Greedy"] ["UDP", "TCP"] 0
    (by decide) (by decide) (by decide) (by decide)).2.2.2

/-- C2: after the result-collection loop, `successful_runs + failed_runs`
equals the number of submitted invocations, for every outcome list that
has exactly one outcome (normal boolean return or worker-level
exception) per submitted invocation; an exception is counted as one
failure and does not stop the counting of the rest. -/
theorem success_failure_counts_total (csv : String) (catalog : List (String × Category))
    (timestamp : String) (categories strategies0 protocols0 : Option (List String))
    (outcomes : List WorkerOutcome)
    (hlen : outcomes.length
      = (run_all_tests_invocations csv catalog timestamp categories strategies0
          protocols0).length) :
    (run_all_tests_report csv catalog timestamp categories strategies0 protocols0
        outcomes).successful_runs
      + (run_all_tests_report csv catalog timestamp categories strategies0 protocols0
        outcomes).failed_runs
      = (run_all_tests_invocations csv catalog timestamp categories strategies0
          protocols0).length := by
  show (collect_results outcomes).1 + (collect_results outcomes).2 = _
  rw [collect_results_sum]
  exact hlen

/-- Witness for C2: one submitted invocation whose worker raises is
counted as exactly one failure, and the totals balance. -/
theorem success_failure_counts_total_witness :
    ([WorkerOutcome.exc "boom"].length
      = (run_all_tests_invocations "scratch/output_files_csv/mlo_unified_results.csv" scenarios
          "20250101_100000" (some ["failure_recovery"]) (some ["RoundRobin"])
          (some ["UDP"])).length)
    ∧ (run_all_tests_report "scratch/output_files_csv/mlo_unified_results.csv" scenarios
          "20250101_100000" (some ["failure_recovery"]) (some ["RoundRobin"]) (some ["UDP"])
          [WorkerOutcome.exc "boom"]).successful_runs
      + (run_all_tests_report "scratch/output_files_csv/mlo_unified_results.csv" scenarios
          "20250101_100000" (some ["failure_recovery"]) (some ["RoundRobin"]) (some ["UDP"])
          [WorkerOutcome.exc "boom"]).failed_runs
      = (run_all_tests_invocations "scratch/output_files_csv/mlo_unified_results.csv" scenarios
          "20250101_100000" (some ["failure_recovery"]) (some ["RoundRobin"])
          (some ["UDP"])).length :=
  ⟨by decide,
   success_failure_counts_total "scratch/output_files_csv/mlo_unified_results.csv" scenarios
     "20250101_100000" (some ["failure_recovery"]) (some ["RoundRobin"]) (some ["UDP"])
     [WorkerOutcome.exc "boom"] (by decide)⟩

/-- C3: within one orchestration run the run identifiers of the
generated invocations are pairwise distinct, for every selection and
every start timestamp (and in fact every catalog), so no two
invocations of a run collide on a log file name. -/
theorem runIds_unique_within_run (csv : String) (catalog : List (String × Category))
    (timestamp : String) (categories strategies0 protocols0 : Option (List String)) :
    ((run_all_tests_invocations csv catalog timestamp categories strategies0 protocols0).map
      Invocation.runId).Nodup :=
  expandCats_runIds_nodup csv catalog (pyOr categories (catalog.map Prod.fst))
    (pyOr strategies0 strategies) (pyOr protocols0 protocols) (seedBase timestamp)

/-- C4 counterexample: two runs whose start timestamps fall in different
(consecutive) seconds share the seed 100002, so the seed sets of runs
started in different seconds are NOT disjoint. -/
theorem seed_ranges_overlap_across_runs :
    ("20250101_100000" : String) ≠ "20250101_100001"
    ∧ seedBase "20250101_100000" = 100000
    ∧ seedBase "20250101_100001" = 100001
    ∧ (run_all_tests_invocations "scratch/output_files_csv/mlo_unified_results.csv" scenarios
        "20250101_100000" (some ["failure_recovery"]) (some ["RoundRobin"])
        (some ["UDP", "TCP"])).map Invocation.seed = [100001, 100002]
    ∧ (run_all_tests_invocations "scratch/output_files_csv/mlo_unified_results.csv" scenarios
        "20250101_100001" (some ["failure_recovery"]) (some ["RoundRobin"])
        (some ["UDP", "TCP"])).map Invocation.seed = [100002, 100003]
    ∧ 100002 ∈ (run_all_tests_invocations "scratch/output_files_csv/mlo_unified_results.csv"
        scenarios "20250101_100000" (some ["failure_recovery"]) (some ["RoundRobin"])
        (some ["UDP", "TCP"])).map Invocation.seed
    ∧ 100002 ∈ (run_all_tests_invocations "scratch/output_files_csv/mlo_unified_results.csv"
        scenarios "20250101_100001" (some ["failure_recovery"]) (some ["RoundRobin"])
        (some ["UDP", "TCP"])).map Invocation.seed := by
  refine ⟨by decide, by decide, by decide, by decide, by decide, by decide, by decide⟩

/-- C4 amended: within one run the seeds are the consecutive values
`seedBase + 1, seedBase + 2, ...` of the counter initialised from the
time-of-day field of the run's start timestamp — strictly increasing,
hence pairwise distinct; across runs started in different seconds the
seed ranges are NOT disjoint (see the counterexample). -/
theorem seeds_consecutive_within_run (csv : String) (catalog : List (String × Category))
    (timestamp : String) (categories strategies0 protocols0 : Option (List String)) :
    ((run_all_tests_invocations csv catalog timestamp categories strategies0 protocols0).map
        Invocation.seed
      = List.range' (seedBase timestamp + 1)
          (run_all_tests_invocations csv catalog timestamp categories strategies0
            protocols0).length)
    ∧ ((run_all_tests_invocations csv catalog timestamp categories strategies0 protocols0).map
        Invocation.seed).Pairwise (· < ·) := by
  constructor
  · exact expandCats_map_seed csv catalog (pyOr categories (catalog.map Prod.fst))
      (pyOr strategies0 strategies) (pyOr protocols0 protocols) (seedBase timestamp)
  · rw [show (run_all_tests_invocations csv catalog timestamp categories strategies0
          protocols0).map Invocation.seed
        = List.range' (seedBase timestamp + 1)
            (run_all_tests_invocations csv catalog timestamp categories strategies0
              protocols0).length
      from expandCats_map_seed csv catalog (pyOr categories (catalog.map Prod.fst))
        (pyOr strategies0 strategies) (pyOr protocols0 protocols) (seedBase timestamp)]
    exact List.pairwise_lt_range' _ _

/-- C5: when process creation raises, `run_single_test` catches the
fault and returns normally with a failure result: the boolean is
`false`, no exit code exists (the outcome carries none and no
`Return Code` section is written), the fault text is appended to the
invocation's log artifact, and the recorded error text is non-empty. -/
theorem launch_failure_contained (log_dir timestamp : String)
    (test_info : String × String × String) (msg now_iso exec_time : String) :
    ((run_single_test log_dir timestamp test_info (ProcOutcome.raised msg) now_iso
        exec_time).1 = false)
    ∧ ((run_single_test log_dir timestamp test_info (ProcOutcome.raised msg) now_iso
        exec_time).2.path = log_dir ++ "/" ++ test_info.2.1 ++ "_" ++ timestamp ++ ".log")
    ∧ ((run_single_test log_dir timestamp test_info (ProcOutcome.raised msg) now_iso
        exec_time).2.mode_append = true)
    ∧ ((run_single_test log_dir timestamp test_info (ProcOutcome.raised msg) now_iso
        exec_time).2.content = "\n--- PYTHON EXCEPTION ---\n" ++ msg)
    ∧ ((run_single_test log_dir timestamp test_info (ProcOutcome.raised msg) now_iso
        exec_time).2.content ≠ "") := by
  refine ⟨rfl, rfl, rfl, rfl, ?_⟩
  show ("\n--- PYTHON EXCEPTION ---\n" ++ msg : String) ≠ ""
  intro h
  have hlen := congrArg (fun s => s.data.length) h
  simp only [String.data_append, List.length_append] at hlen
  have h26 : ("\n--- PYTHON EXCEPTION ---\n" : String).data.length = 26 := by decide
  rw [h26] at hlen
  simp at hlen

/-- C6: for a subprocess that terminates, the result is success exactly
when the exit code is 0, and the log artifact carries a
`Return Code: <code>` line; concretely, exit code 137 yields a failure
whose log has the line `Return Code: 137`. -/
theorem exit_code_determines_success (log_dir timestamp : String)
    (test_info : String × String × String) (rc : Int) (out err now_iso exec_time : String) :
    (((run_single_test log_dir timestamp test_info (ProcOutcome.completed rc out err) now_iso
        exec_time).1 = true) ↔ rc = 0)
    ∧ (∃ pre post : String,
        (run_single_test log_dir timestamp test_info (ProcOutcome.completed rc out err) now_iso
          exec_time).2.content
        = pre ++ ("Return Code: " ++ toString rc ++ "\n") ++ post)
    ∧ ((run_single_test "scratch/logs" "20250101_100000" ("cmd", "nm", "d")
        (ProcOutcome.completed 137 "so" "se") "2025-01-01T00:00:00" "1.00").1 = false)
    ∧ ("Return Code: 137" ∈ lines (run_single_test "scratch/logs" "20250101_100000"
        ("cmd", "nm", "d") (ProcOutcome.completed 137 "so" "se") "2025-01-01T00:00:00"
        "1.00").2.content) := by
  refine ⟨?_, ?_, by decide, by decide⟩
  · show ((rc == 0) = true) ↔ rc = 0
    exact beq_iff_eq
  · refine ⟨"--- TEST DETAILS ---" ++ "\n" ++
      "Test Name: " ++ test_info.2.1 ++ "\n" ++
      "Description: " ++ test_info.2.2 ++ "\n" ++
      "Timestamp: " ++ now_iso ++ "\n" ++
      "Execution Time: " ++ exec_time ++ " seconds\n",
      "\n" ++ "--- COMMAND ---\n" ++ test_info.1 ++ "\n" ++ "\n" ++
      "--- STDOUT ---\n" ++ out ++ "\n" ++
      "--- STDERR ---\n" ++ err, ?_⟩
    apply String.ext
    simp only [run_single_test, String.data_append, List.append_assoc]

/-- C7: the command built by `generate_test_command` is the simulator
entry point, the spec's fixed flag block in order (strategy, protocol,
seed, csvFile, scenario id `category_name`, runNumber — with the
runNumber equal to the seed — and verbose), then the scenario's own
parameter string verbatim, then the closing shell quote. -/
theorem command_shape_spec (csv cat : String) (tc : TestConfig)
    (strat prot : String) (seed : Nat) :
    (generate_test_command csv cat tc strat prot seed).1
      = "./ns3 run \x27mlo_simulator "
        ++ specCommandFlags strat prot seed csv (cat ++ "_" ++ tc.name) seed
        ++ tc.params ++ "\x27" := by
  apply String.ext
  simp only [generate_test_command, specCommandFlags, String.data_append, List.append_assoc]

/-- C8 counterexample: the extreme runner's log artifact contains no
`--- TEST DETAILS ---` header line; its first line reads
`--- EXTREME TEST DETAILS ---`. -/
theorem extreme_log_header_counterexample :
    (¬ ("--- TEST DETAILS ---" ∈ lines (extreme_run_single_test "scratch/logs"
        "20250101_100000" ("cmd", "nm", "d") (ProcOutcome.completed 0 "so" "se")
        "2025-01-01T00:00:00" "1.00").2.content))
    ∧ (lines (extreme_run_single_test "scratch/logs" "20250101_100000" ("cmd", "nm", "d")
        (ProcOutcome.completed 0 "so" "se") "2025-01-01T00:00:00" "1.00").2.content).getD 0 ""
      = "--- EXTREME TEST DETAILS ---" := by
  refine ⟨by decide, by decide⟩

/-- C8 amended: both executors write one log artifact named
`<runId>_<run-start-timestamp>.log` in the log directory, with the
spec's sections in fixed order (details header with Test Name,
Description, Timestamp, Execution Time, Return Code; then COMMAND;
then STDOUT; then STDERR); the details header line is
`--- TEST DETAILS ---` for the basic runner but
`--- EXTREME TEST DETAILS ---` for the extreme runner. -/
theorem log_artifact_spec_shape (log_dir timestamp : String)
    (test_info : String × String × String) (rc : Int) (out err now_iso exec_time : String) :
    ((run_single_test log_dir timestamp test_info (ProcOutcome.completed rc out err) now_iso
        exec_time).2.path = log_dir ++ "/" ++ test_info.2.1 ++ "_" ++ timestamp ++ ".log")
    ∧ ((run_single_test log_dir timestamp test_info (ProcOutcome.completed rc out err) now_iso
        exec_time).2.mode_append = false)
    ∧ ((run_single_test log_dir timestamp test_info (ProcOutcome.completed rc out err) now_iso
        exec_time).2.content
      = specLogArtifact "--- TEST DETAILS ---" test_info.2.1 test_info.2.2 now_iso exec_time
          rc test_info.1 out err)
    ∧ ((extreme_run_single_test log_dir timestamp test_info (ProcOutcome.completed rc out err)
        now_iso exec_time).2.path
      = log_dir ++ "/" ++ test_info.2.1 ++ "_" ++ timestamp ++ ".log")
    ∧ ((extreme_run_single_test log_dir timestamp test_info (ProcOutcome.completed rc out err)
        now_iso exec_time).2.content
      = specLogArtifact "--- EXTREME TEST DETAILS ---" test_info.2.1 test_info.2.2 now_iso
          exec_time rc test_info.1 out err) := by
  refine ⟨rfl, rfl, ?_, rfl, ?_⟩
  · apply String.ext
    simp only [run_single_test, specLogArtifact, String.data_append, List.append_assoc]
  · apply String.ext
    simp only [extreme_run_single_test, specLogArtifact, String.data_append, List.append_assoc]

/-- C9 counterexample: a selection whose only category is absent from
the catalog expands to zero invocations, and `run_all_tests` is NOT
fatal there: it warns about the unknown category, skips it, submits
nothing, and completes normally with a zero summary (it does not abort
before dispatch). -/
theorem empty_expansion_not_fatal_counterexample :
    run_all_tests_report "scratch/output_files_csv/mlo_unified_results.csv" scenarios
      "20250101_100000" (some ["bogus"]) none none []
      = { skipped := ["bogus"], total := 0, successful_runs := 0, failed_runs := 0 } := by
  decide

/-- C9 amended: per-invocation failures never abort the batch (they only
increment the failure counter), and a selection resolving to zero
invocations is likewise not fatal: every unknown category is warned
about and skipped, nothing is submitted, and the run completes normally
with a zero summary. -/
theorem unknown_categories_skipped_run_completes (csv timestamp : String)
    (cats : List String) (strategies0 protocols0 : Option (List String))
    (hne : cats ≠ [])
    (hunknown : ∀ cn ∈ cats, List.lookup cn scenarios = none) :
    ((run_all_tests_report csv scenarios timestamp (some cats) strategies0 protocols0
        []).skipped = cats)
    ∧ ((run_all_tests_report csv scenarios timestamp (some cats) strategies0 protocols0
        []).total = 0)
    ∧ ((run_all_tests_report csv scenarios timestamp (some cats) strategies0 protocols0
        []).successful_runs = 0)
    ∧ ((run_all_tests_report csv scenarios timestamp (some cats) strategies0 protocols0
        []).failed_runs = 0) := by
  have hres : pyOr (some cats) (scenarios.map Prod.fst) = cats := by
    cases cats with
    | nil => exact absurd rfl hne
    | cons a l => rfl
  refine ⟨?_, ?_, rfl, rfl⟩
  · show skippedCategories scenarios (pyOr (some cats) (scenarios.map Prod.fst)) = cats
    rw [hres]
    unfold skippedCategories
    rw [List.filter_eq_self]
    intro cn hcn
    rw [hunknown cn hcn]
    rfl
  · show (run_all_tests_invocations csv scenarios timestamp (some cats) strategies0
      protocols0).length = 0
    unfold run_all_tests_invocations
    rw [hres, expandCats_length]
    apply List.sum_eq_zero
    intro x hx
    rw [List.mem_map] at hx
    obtain ⟨cn, hcn, rfl⟩ := hx
    unfold scenariosFor
    rw [hunknown cn hcn]
    simp

/-- Witness for C9's amended statement at the concrete selection
`["bogus"]`. -/
theorem unknown_categories_skipped_run_completes_witness :
    (run_all_tests_report "scratch/output_files_csv/mlo_unified_results.csv" scenarios
      "20250101_100001" (some ["bogus"]) none none []).total = 0 :=
  (unknown_categories_skipped_run_completes "scratch/output_files_csv/mlo_unified_results.csv"
    "20250101_100001" ["bogus"] none none (by decide) (by decide)).2.1

/-- C10: an empty list passed for categories, strategies or protocols is
resolved by Python truthiness exactly like passing no selection at all:
it expands to all catalog categories (8 of them), all four strategies,
or all three protocols respectively, not to an empty run. -/
theorem empty_selection_defaults_to_full (csv timestamp : String)
    (categories strategies0 protocols0 : Option (List String)) :
    (run_all_tests_invocations csv scenarios timestamp (some []) strategies0 protocols0
      = run_all_tests_invocations csv scenarios timestamp none strategies0 protocols0)
    ∧ (run_all_tests_invocations csv scenarios timestamp categories (some []) protocols0
      = run_all_tests_invocations csv scenarios timestamp categories none protocols0)
    ∧ (run_all_tests_invocations csv scenarios timestamp categories strategies0 (some [])
      = run_all_tests_invocations csv scenarios timestamp categories strategies0 none)
    ∧ pyOr (some []) (scenarios.map Prod.fst) = scenarios.map Prod.fst
    ∧ (scenarios.map Prod.fst).length = 8
    ∧ pyOr (some []) strategies = ["RoundRobin", "Greedy", "Reliability", "SLA-MLO"]
    ∧ pyOr (some []) protocols = ["UDP", "TCP", "Mixed"] := by
  refine ⟨rfl, rfl, rfl, rfl, by decide, rfl, rfl⟩

end MLO
